import Mathlib

/-!
Verification of the Accessibility & Documentation Synthesis Pipeline
(GitLab merge-request documentation generator).

The Python sources are shallowly embedded: pure helper functions become
Lean functions over `String`/`List`; every interaction with the network,
the browser session or the filesystem is abstracted into an explicit
environment value describing the outcome of that interaction (HTTP status,
elements found for a CSS selector, an exception raised by a step, ...).
String primitives are re-implemented structurally over `List Char` so that
theorems about concrete inputs can be settled by kernel evaluation.
-/

namespace Pystr

/-- Python-style character-list prefix test (structural, kernel-evaluable). -/
def listPrefixOf : List Char → List Char → Bool
  | [], _ => true
  | _ :: _, [] => false
  | a :: as, b :: bs => a = b && listPrefixOf as bs

/-- Python `s.startswith(p)` on strings. -/
def startsWith (s p : String) : Bool :=
  listPrefixOf p.toList s.toList

/-- Auxiliary for `split`: accumulate the current field (reversed). -/
def splitAux (sep : Char) : List Char → List Char → List String
  | [], acc => [acc.reverse.asString]
  | c :: cs, acc =>
      if c = sep then acc.reverse.asString :: splitAux sep cs []
      else splitAux sep cs (c :: acc)

/-- Python `s.split(sep)` for a one-character separator:
`"".split` gives `[""]`, and every separator occurrence produces a field. -/
def split (s : String) (sep : Char) : List String :=
  splitAux sep s.toList []

/-- Substring containment over character lists. -/
def listContains (hay pat : List Char) : Bool :=
  match hay with
  | [] => listPrefixOf pat []
  | _ :: rest => listPrefixOf pat hay || listContains rest pat

/-- Python `pat in s` (substring containment). -/
def contains (s pat : String) : Bool :=
  listContains s.toList pat.toList

/-- Python `s.lower()` (ASCII case folding, as used on the ASCII data of the repo). -/
def lower (s : String) : String :=
  (s.toList.map Char.toLower).asString

/-- Python `s.strip()`: drop whitespace from both ends. -/
def strip (s : String) : String :=
  ((s.toList.dropWhile Char.isWhitespace).reverse.dropWhile Char.isWhitespace).reverse.asString

/-- Python `len(s)` (code points). -/
def strLen (s : String) : Nat := s.toList.length

/-- Python `s[:n]`. -/
def take (s : String) (n : Nat) : String :=
  (s.toList.take n).asString

/-- Python `s[-n:]` (the last `n` characters, or all of them when shorter). -/
def takeRight (s : String) (n : Nat) : String :=
  (s.toList.reverse.take n).reverse.asString

/-- Python `sep.join(parts)`. -/
def joinWith (sep : String) : List String → String
  | [] => ""
  | [x] => x
  | x :: xs => x ++ sep ++ joinWith sep xs

/-- Python `s.title()` for the single lowercase words it is applied to:
uppercase a letter whose predecessor is not a letter, lowercase the rest. -/
def titleAux : Bool → List Char → List Char
  | _, [] => []
  | prevAlpha, c :: cs =>
      if c.isAlpha then
        (if prevAlpha then c.toLower else c.toUpper) :: titleAux true cs
      else
        c :: titleAux false cs

/-- Python `s.title()`. -/
def title (s : String) : String :=
  (titleAux false s.toList).asString

/-- First-appearance-order deduplication, the iteration order of a Python
`dict` whose keys are inserted in list order. -/
def firstSeen (l : List String) : List String :=
  l.foldl (fun acc k => if acc.contains k then acc else acc ++ [k]) []

end Pystr

/-! ## Line counting (`_process_mr_data`)

Two variants ship in the repository.  `gitlab_mr_enhanced.py` (lines 157-163)
excludes the `+++`/`---` diff file headers from the counts;
`gitlab_mr_completion.py` (lines 936-941) counts every line that begins with
`+` or `-`, headers included. -/

namespace MrEnhanced

/-- Embedding of `diff.split` guarded by `if diff else []` from `gitlab_mr_enhanced._process_mr_data`. -/
def diff_lines (diff : String) : List String :=
  if diff = "" then [] else Pystr.split diff '\n'

/-- Addition count of `gitlab_mr_enhanced._process_mr_data` (line 159):
lines starting with `+` but not `+++`. -/
def additions (diff : String) : Nat :=
  ((diff_lines diff).filter
    (fun line => Pystr.startsWith line "+" && !(Pystr.startsWith line "+++"))).length

/-- Deletion count of `gitlab_mr_enhanced._process_mr_data` (line 160):
lines starting with `-` but not `---`. -/
def deletions (diff : String) : Nat :=
  ((diff_lines diff).filter
    (fun line => Pystr.startsWith line "-" && !(Pystr.startsWith line "---"))).length

/-- The per-file (additions, deletions) pair of `gitlab_mr_enhanced.py`. -/
def countLines (diff : String) : Nat × Nat :=
  (additions diff, deletions diff)

end MrEnhanced

namespace MrCompletion

/-- Addition count of `gitlab_mr_completion._process_mr_data` (line 938):
every line starting with `+`, the `+++` header included. -/
def additions (diff : String) : Nat :=
  ((Pystr.split diff '\n').filter (fun line => Pystr.startsWith line "+")).length

/-- Deletion count of `gitlab_mr_completion._process_mr_data` (line 939):
every line starting with `-`, the `---` header included. -/
def deletions (diff : String) : Nat :=
  ((Pystr.split diff '\n').filter (fun line => Pystr.startsWith line "-")).length

/-- The per-file (additions, deletions) pair of `gitlab_mr_completion.py`. -/
def countLines (diff : String) : Nat × Nat :=
  (additions diff, deletions diff)

end MrCompletion

/-- The wording of the claim for the addition count: the number of lines of
the diff beginning with `+`, the `+++` file header excluded. -/
def claimAdditionCount (diff : String) : Nat :=
  ((Pystr.split diff '\n').filter
    (fun line => Pystr.startsWith line "+" && !(Pystr.startsWith line "+++"))).length

/-- The wording of the claim for the deletion count: the number of lines of
the diff beginning with `-`, the `---` file header excluded. -/
def claimDeletionCount (diff : String) : Nat :=
  ((Pystr.split diff '\n').filter
    (fun line => Pystr.startsWith line "-" && !(Pystr.startsWith line "---"))).length

/-- A `+++` (resp. `---`) header line in particular begins with `+` (resp. `-`). -/
lemma startsWith_of_startsWith_triple (l : String) (c : Char)
    (h : Pystr.listPrefixOf [c, c, c] l.toList = true) :
    Pystr.listPrefixOf [c] l.toList = true := by
  cases hl : l.toList with
  | nil => rw [hl] at h; simp [Pystr.listPrefixOf] at h
  | cons a as =>
      rw [hl] at h
      simp [Pystr.listPrefixOf] at h ⊢
      exact h.1

/-- Counting split: when `b` implies `a`, the lines satisfying `a` are exactly
those satisfying `a` but not `b` plus those satisfying `b`. -/
lemma filter_length_split (a b : String → Bool) (h : ∀ x, b x = true → a x = true) :
    ∀ ls : List String,
      (ls.filter a).length =
        (ls.filter (fun x => a x && !(b x))).length + (ls.filter b).length := by
  intro ls
  induction ls with
  | nil => simp
  | cons x xs ih =>
      by_cases hb : b x = true
      · have ha := h x hb
        simp [List.filter, ha, hb, ih]
        omega
      · rw [Bool.not_eq_true] at hb
        by_cases ha : a x = true
        · simp [List.filter, ha, hb, ih]
          omega
        · rw [Bool.not_eq_true] at ha
          simp [List.filter, ha, hb, ih]

/-- C1, counterexample. The claim asserts that the line-counting operation
(citing both `gitlab_mr_enhanced._process_mr_data` and
`gitlab_mr_completion._process_mr_data`) never counts the `+++`/`---` file
headers, so a headers-only diff yields `(0, 0)`.  The
`gitlab_mr_completion.py` variant counts them: on the two-header diff it
returns `(1, 1)` while the claimed count is `(0, 0)`. -/
theorem C1_counterexample :
    MrCompletion.countLines "--- a/f.txt\n+++ b/f.txt" = (1, 1) ∧
    (claimAdditionCount "--- a/f.txt\n+++ b/f.txt",
     claimDeletionCount "--- a/f.txt\n+++ b/f.txt") = (0, 0) := by
  decide

/-- C1, amended. The `gitlab_mr_enhanced.py` line counter matches the claim
exactly (headers excluded; empty diff and headers-only diff give `(0, 0)`),
while the `gitlab_mr_completion.py` variant counts every `+`/`-` line, i.e.
its counts exceed the claimed ones by exactly the number of `+++`/`---`
header lines. -/
theorem C1_amended :
    (∀ diff, MrEnhanced.countLines diff = (claimAdditionCount diff, claimDeletionCount diff)) ∧
    MrEnhanced.countLines "" = (0, 0) ∧
    MrEnhanced.countLines "--- a/f.txt\n+++ b/f.txt" = (0, 0) ∧
    (∀ diff,
      MrCompletion.additions diff =
        claimAdditionCount diff +
          ((Pystr.split diff '\n').filter (fun l => Pystr.startsWith l "+++")).length ∧
      MrCompletion.deletions diff =
        claimDeletionCount diff +
          ((Pystr.split diff '\n').filter (fun l => Pystr.startsWith l "---")).length) := by
  refine ⟨?_, by decide, by decide, ?_⟩
  · intro diff
    by_cases h : diff = ""
    · subst h; decide
    · simp [MrEnhanced.countLines, MrEnhanced.additions, MrEnhanced.deletions,
        MrEnhanced.diff_lines, claimAdditionCount, claimDeletionCount, h]
  · intro diff
    constructor
    · have := filter_length_split (fun l => Pystr.startsWith l "+")
        (fun l => Pystr.startsWith l "+++")
        (fun x hx => startsWith_of_startsWith_triple x '+' hx)
        (Pystr.split diff '\n')
      simpa [MrCompletion.additions, claimAdditionCount, Pystr.startsWith] using this
    · have := filter_length_split (fun l => Pystr.startsWith l "-")
        (fun l => Pystr.startsWith l "---")
        (fun x hx => startsWith_of_startsWith_triple x '-' hx)
        (Pystr.split diff '\n')
      simpa [MrCompletion.deletions, claimDeletionCount, Pystr.startsWith] using this

/-! ## Change classification (`gitlab_mr_missing_code.py`)

`determine_change_type` (lines 156-165) and `categorize_file` (lines 130-154). -/

namespace MissingCode

/-- The three GitLab change flags carried by a raw change entry
(`new_file`, `deleted_file`, `renamed_file`, each defaulting to false). -/
structure ChangeFlags where
  new_file : Bool
  deleted_file : Bool
  renamed_file : Bool
deriving DecidableEq, Repr

/-- Embedding of `determine_change_type` of `gitlab_mr_missing_code.py` (lines 156-165). -/
def determine_change_type (c : ChangeFlags) : String :=
  if c.new_file then "added"
  else if c.deleted_file then "deleted"
  else if c.renamed_file then "renamed"
  else "modified"

/-- The test-file condition of `categorize_file` (line 135). -/
def test_match (file_path : String) : Bool :=
  ["test", "spec", "__tests__"].any (fun ind => Pystr.contains (Pystr.lower file_path) ind)

/-- The configuration condition of `categorize_file` (line 139). -/
def config_match (file_path file_type : String) : Bool :=
  file_type = "config" ||
    ["config", "properties", "yml", "yaml"].any
      (fun ind => Pystr.contains (Pystr.lower file_path) ind)

/-- The documentation condition of `categorize_file` (line 143). -/
def doc_match (file_path : String) : Bool :=
  ["readme", "doc", "docs", ".md"].any (fun ind => Pystr.contains (Pystr.lower file_path) ind)

/-- The frontend condition of `categorize_file` (line 147). -/
def frontend_match (file_type : String) : Bool :=
  ["react", "frontend", "javascript"].contains file_type

/-- The backend condition of `categorize_file` (line 151). -/
def backend_match (file_type : String) : Bool :=
  ["java", "spring"].contains file_type

/-- Embedding of `categorize_file` of `gitlab_mr_missing_code.py` (lines 130-154):
fixed first-match chain test > configuration > documentation > frontend >
backend > other. -/
def categorize_file (file_path file_type : String) : String :=
  if test_match file_path then "test"
  else if config_match file_path file_type then "configuration"
  else if doc_match file_path then "documentation"
  else if frontend_match file_type then "frontend"
  else if backend_match file_type then "backend"
  else "other"

end MissingCode

/-- C4. Every change entry gets exactly one change kind, with priority
added > deleted > renamed > modified even when several flags are set, and
every file gets exactly one coarse category out of
test/configuration/documentation/frontend/backend/other, assigned by the
fixed first-match priority chain. -/
theorem C4_classification (c : MissingCode.ChangeFlags) (path ftype : String) :
    (c.new_file = true → MissingCode.determine_change_type c = "added") ∧
    (c.new_file = false → c.deleted_file = true →
      MissingCode.determine_change_type c = "deleted") ∧
    (c.new_file = false → c.deleted_file = false → c.renamed_file = true →
      MissingCode.determine_change_type c = "renamed") ∧
    (c.new_file = false → c.deleted_file = false → c.renamed_file = false →
      MissingCode.determine_change_type c = "modified") ∧
    MissingCode.determine_change_type c ∈ ["added", "deleted", "renamed", "modified"] ∧
    MissingCode.categorize_file path ftype ∈
      ["test", "configuration", "documentation", "frontend", "backend", "other"] ∧
    (MissingCode.test_match path = true →
      MissingCode.categorize_file path ftype = "test") ∧
    (MissingCode.test_match path = false → MissingCode.config_match path ftype = true →
      MissingCode.categorize_file path ftype = "configuration") ∧
    (MissingCode.test_match path = false → MissingCode.config_match path ftype = false →
      MissingCode.doc_match path = true →
      MissingCode.categorize_file path ftype = "documentation") ∧
    (MissingCode.test_match path = false → MissingCode.config_match path ftype = false →
      MissingCode.doc_match path = false → MissingCode.frontend_match ftype = true →
      MissingCode.categorize_file path ftype = "frontend") ∧
    (MissingCode.test_match path = false → MissingCode.config_match path ftype = false →
      MissingCode.doc_match path = false → MissingCode.frontend_match ftype = false →
      MissingCode.backend_match ftype = true →
      MissingCode.categorize_file path ftype = "backend") ∧
    (MissingCode.test_match path = false → MissingCode.config_match path ftype = false →
      MissingCode.doc_match path = false → MissingCode.frontend_match ftype = false →
      MissingCode.backend_match ftype = false →
      MissingCode.categorize_file path ftype = "other") := by
  unfold MissingCode.determine_change_type MissingCode.categorize_file
  refine ⟨?_, ?_, ?_, ?_, ?_, ?_, ?_, ?_, ?_, ?_, ?_, ?_⟩
  · intro h1; simp [h1]
  · intro h1 h2; simp [h1, h2]
  · intro h1 h2 h3; simp [h1, h2, h3]
  · intro h1 h2 h3; simp [h1, h2, h3]
  · rcases c with ⟨nf, df, rf⟩
    cases nf <;> cases df <;> cases rf <;> simp
  · split
    · simp
    · split
      · simp
      · split
        · simp
        · split
          · simp
          · split <;> simp
  · intro h1; simp [h1]
  · intro h1 h2; simp [h1, h2]
  · intro h1 h2 h3; simp [h1, h2, h3]
  · intro h1 h2 h3 h4; simp [h1, h2, h3, h4]
  · intro h1 h2 h3 h4 h5; simp [h1, h2, h3, h4, h5]
  · intro h1 h2 h3 h4 h5; simp [h1, h2, h3, h4, h5]

/-- C4, witness: concrete inputs exercising the kind priority (all three
flags set gives `added`) and the category chain (a Java file under no
test/config/doc marker is `backend`). -/
theorem C4_classification_witness :
    MissingCode.determine_change_type ⟨true, true, true⟩ = "added" ∧
    MissingCode.categorize_file "src/main/java/App.java" "java" = "backend" := by
  have h := C4_classification ⟨true, true, true⟩ "src/main/java/App.java" "java"
  refine ⟨h.1 rfl, ?_⟩
  exact h.2.2.2.2.2.2.2.2.2.2.1 (by decide) (by decide) (by decide) (by decide) (by decide)

namespace MissingCode

/-- A raw change entry of the GitLab `/changes` payload, with the keys read
by `process_file_changes` (absent keys are `none`). -/
structure RawChange where
  new_path : Option String
  old_path : Option String
  diff : Option String
  new_file : Bool
  deleted_file : Bool
  renamed_file : Bool

/-- Embedding of `change.get("new_path") or change.get("old_path", "")` (line 35):
Python `or` falls through on a missing or empty new path. -/
def raw_file_path (c : RawChange) : String :=
  match c.new_path with
  | some p => if p = "" then c.old_path.getD "" else p
  | none => c.old_path.getD ""

/-- The GitLab flags of a raw change. -/
def RawChange.flags (c : RawChange) : ChangeFlags :=
  ⟨c.new_file, c.deleted_file, c.renamed_file⟩

/-- One token of a compiled Python regex, covering exactly the constructs
used by the configuration patterns of `enhanced_gitlab_mr_generator.py`
(whose configuration header also serves `gitlab_mr_missing_code.py`, the
continuation of the same script): a literal (escaped dots and parentheses
included), the any-gap `.*` (which cannot cross a newline), the whitespace
runs `\s+` and `\s*` (modelled over the common ASCII whitespace characters),
and a character class such as the quote alternation. -/
inductive Rtok where
  | lit (s : String)
  | gap
  | ws1
  | ws0
  | oneOf (cs : List Char)
deriving DecidableEq, Repr

/-- Consume a literal case-insensitively (`re.IGNORECASE`), returning the
remaining input on success. -/
def consumeLit : List Char → List Char → Option (List Char)
  | [], cs => some cs
  | _ :: _, [] => none
  | l :: ls, c :: cs => if l.toLower = c.toLower then consumeLit ls cs else none

/-- The remainders the `.*` gap can leave: every suffix obtained by dropping
a run of non-newline characters. -/
def gapSuffixes : List Char → List (List Char)
  | [] => [[]]
  | c :: cs => (c :: cs) :: (if c = Char.ofNat 10 then [] else gapSuffixes cs)

/-- The remainders a `\s*` run can leave: every suffix obtained by dropping
a run of whitespace characters. -/
def wsSuffixes : List Char → List (List Char)
  | [] => [[]]
  | c :: cs => (c :: cs) :: (if c.isWhitespace then wsSuffixes cs else [])

/-- Match a compiled pattern at the start of the input. -/
def matchHere : List Rtok → List Char → Bool
  | [], _ => true
  | .lit l :: ts, cs =>
      match consumeLit l.toList cs with
      | some rest => matchHere ts rest
      | none => false
  | .gap :: ts, cs => (gapSuffixes cs).any (fun rest => matchHere ts rest)
  | .ws1 :: ts, cs =>
      match cs with
      | [] => false
      | c :: rest => c.isWhitespace && (wsSuffixes rest).any (fun r2 => matchHere ts r2)
  | .ws0 :: ts, cs => (wsSuffixes cs).any (fun rest => matchHere ts rest)
  | .oneOf chars :: ts, cs =>
      match cs with
      | [] => false
      | c :: rest => chars.contains c && matchHere ts rest

/-- Match a compiled pattern at any start position (`re.search`). -/
def searchFrom (p : List Rtok) : List Char → Bool
  | [] => matchHere p []
  | c :: rest => matchHere p (c :: rest) || searchFrom p rest

/-- Embedding of `re.search(pattern, diff_content, re.IGNORECASE)` on a
compiled pattern. -/
def pattern_search (pat : List Rtok) (diff : String) : Bool :=
  searchFrom pat diff.toList

/-- Embedding of `SUPPORTED_FILE_EXTENSIONS`
(`enhanced_gitlab_mr_generator.py` lines 53-61, the configuration header of
the script `gitlab_mr_missing_code.py` continues), in dict insertion
order. -/
def SUPPORTED_FILE_EXTENSIONS : List (String × List String) :=
  [("java", [".java"]),
   ("javascript", [".js", ".jsx", ".ts", ".tsx"]),
   ("react", [".jsx", ".tsx"]),
   ("spring", [".java"]),
   ("frontend", [".js", ".jsx", ".ts", ".tsx", ".html", ".css", ".scss", ".sass"]),
   ("config", [".json", ".yml", ".yaml", ".xml", ".properties"]),
   ("test", [".test.js", ".spec.js", ".test.java", ".spec.java"])]

/-- Embedding of `SPRING_BOOT_PATTERNS`
(`enhanced_gitlab_mr_generator.py` lines 64-83), compiled: the only regex
metacharacter in these 18 patterns is the escaped literal dot of the
`org.springframework` pattern, so every entry is a literal searched
case-insensitively. -/
def SPRING_BOOT_PATTERNS : List (List Rtok) :=
  [[.lit "@SpringBootApplication"], [.lit "@RestController"], [.lit "@Controller"],
   [.lit "@Service"], [.lit "@Repository"], [.lit "@Component"],
   [.lit "@Configuration"], [.lit "@Entity"], [.lit "@RequestMapping"],
   [.lit "@GetMapping"], [.lit "@PostMapping"], [.lit "@PutMapping"],
   [.lit "@DeleteMapping"], [.lit "@Autowired"], [.lit "@Value"],
   [.lit "@ConfigurationProperties"], [.lit "org.springframework"],
   [.lit "spring-boot"]]

/-- Embedding of `REACT_PATTERNS` (`enhanced_gitlab_mr_generator.py`
lines 86-98), compiled token by token: `.*` becomes `gap`, `\s+`/`\s*`
become `ws1`/`ws0`, the quote class of the `from ... react` pattern becomes
`oneOf` of the two quote characters (codes 39 and 34), and escaped dots and
parentheses are literal. -/
def REACT_PATTERNS : List (List Rtok) :=
  [[.lit "import", .gap, .lit "React"],
   [.lit "from", .ws1, .oneOf [Char.ofNat 39, Char.ofNat 34], .lit "react",
    .oneOf [Char.ofNat 39, Char.ofNat 34]],
   [.lit "useState"],
   [.lit "useEffect"],
   [.lit "useContext"],
   [.lit "useReducer"],
   [.lit "React.Component"],
   [.lit "ReactDOM"],
   [.lit "JSX.Element"],
   [.lit "export", .gap, .lit "default", .gap, .lit "function"],
   [.lit "const", .gap, .lit "=", .gap, .lit "()", .ws0, .lit "=>"]]

/-- Embedding of `is_spring_boot_file` of `gitlab_mr_missing_code.py` (lines 91-109). -/
def is_spring_boot_file (file_path diff_content : String) : Bool :=
  ["/controller/", "/service/", "/repository/", "/config/",
   "/entity/", "/dto/", "/model/", "Application.java"].any
      (fun ind => Pystr.contains file_path ind) ||
    (diff_content ≠ "" && SPRING_BOOT_PATTERNS.any (fun pat => pattern_search pat diff_content))

/-- Embedding of `is_react_file` of `gitlab_mr_missing_code.py` (lines 111-128). -/
def is_react_file (file_path diff_content : String) : Bool :=
  ["/components/", "/pages/", "/hooks/", "/context/"].any
      (fun ind => Pystr.contains file_path ind) ||
    (diff_content ≠ "" && REACT_PATTERNS.any (fun pat => pattern_search pat diff_content))

/-- Embedding of the extension computation of line 65: a dot plus the last dot-separated segment when the path has a dot, else the empty string. -/
def file_ext (file_path : String) : String :=
  if Pystr.contains file_path "." then
    "." ++ ((Pystr.split file_path '.').reverse.headD "")
  else ""

/-- The primary-type loop of `analyze_file_type` (lines 69-72): first mapping
entry whose extension list contains the lowercased extension. -/
def primary_type (ext : String) : String :=
  ((SUPPORTED_FILE_EXTENSIONS.find?
      (fun entry => entry.2.contains (Pystr.lower ext))).map Prod.fst).getD "unknown"

/-- The analysis record built by `analyze_file_type`. -/
structure FileInfo where
  type : String
  category : String
  frameworks : List String
deriving DecidableEq, Repr

/-- Embedding of `analyze_file_type` of `gitlab_mr_missing_code.py` (lines 56-89). -/
def analyze_file_type (file_path : String) (diff_content : String) : FileInfo :=
  let ext := file_ext file_path
  let t0 := primary_type ext
  let spring := (t0 = "java" || ext = ".java") && is_spring_boot_file file_path diff_content
  let t1 := if spring then "spring" else t0
  let fw1 : List String := if spring then ["Spring Boot"] else []
  let react := [".jsx", ".tsx"].contains (Pystr.lower ext) || is_react_file file_path diff_content
  let fw2 := if react then fw1 ++ ["React"] else fw1
  let t2 := if react && !(Pystr.contains t1 "react") then "react" else t1
  { type := t2, category := categorize_file file_path t2, frameworks := fw2 }

/-- A processed change entry (lines 40-50); the source stores the raw
boolean flags under the keys `additions`/`deletions`/`renamed`. -/
structure ProcessedChange where
  file_path : String
  change_type : String
  file_type : String
  file_category : String
  frameworks : List String
  diff : String
  additions : Bool
  deletions : Bool
  renamed : Bool
deriving DecidableEq, Repr

/-- Embedding of `process_file_changes` of `gitlab_mr_missing_code.py` (lines 30-54). -/
def process_file_changes (changes : List RawChange) : List ProcessedChange :=
  changes.map (fun change =>
    let file_path := raw_file_path change
    let file_info := analyze_file_type file_path (change.diff.getD "")
    { file_path := file_path
      change_type := determine_change_type change.flags
      file_type := file_info.type
      file_category := file_info.category
      frameworks := file_info.frameworks
      diff := change.diff.getD ""
      additions := change.new_file
      deletions := change.deleted_file
      renamed := change.renamed_file })

/-- Outcome of the `requests.get` call in `get_merge_request_changes`:
either a response with a status code and parsed changes payload, or an
exception raised anywhere inside the `try` block. -/
inductive HttpAttempt where
  | response (status : Nat) (changes : List RawChange)
  | exn (msg : String)

/-- Embedding of `get_merge_request_changes` of `gitlab_mr_missing_code.py` (lines 12-28):
200 → processed changes; any other status → `[]`; any exception → `[]`. -/
def get_merge_request_changes (r : HttpAttempt) : List ProcessedChange :=
  match r with
  | .response status changes =>
      if status = 200 then process_file_changes changes else []
  | .exn _ => []

end MissingCode

/-- C10. Fetching and processing the file changes of a merge request never
raises: any exception and any non-200 status produce the empty change list,
and only a 200 response yields processed changes. -/
theorem C10_changes_error_handling (r : MissingCode.HttpAttempt) :
    (∀ msg, r = .exn msg → MissingCode.get_merge_request_changes r = []) ∧
    (∀ status changes, r = .response status changes → status ≠ 200 →
      MissingCode.get_merge_request_changes r = []) ∧
    (∀ changes, r = .response 200 changes →
      MissingCode.get_merge_request_changes r =
        MissingCode.process_file_changes changes) := by
  refine ⟨?_, ?_, ?_⟩
  · intro msg h; subst h; rfl
  · intro status changes h hs; subst h
    simp [MissingCode.get_merge_request_changes, hs]
  · intro changes h; subst h; rfl

/-- C10, witness: a 404 response and a network exception both give the
empty list. -/
theorem C10_changes_error_handling_witness :
    MissingCode.get_merge_request_changes (.response 404 []) = [] ∧
    MissingCode.get_merge_request_changes (.exn "timeout") = [] := by
  refine ⟨?_, ?_⟩
  · exact (C10_changes_error_handling (.response 404 [])).2.1 404 [] rfl (by decide)
  · exact (C10_changes_error_handling (.exn "timeout")).1 "timeout" rfl

/-! ## Accessibility resolution (`enhanced_gitlab_mr_generator.py`)

`verify_gitlab_authentication` (one-time capability probe, lines 136-184),
`get_merge_request_info` (per-request API call, lines 636-669),
`check_mr_browser_access` (lines 506-565), `extract_mr_info_from_browser`
(lines 567-595) and `check_mr_accessibility` (lines 458-504).  Network and
browser interactions are abstracted as outcome values; every fallible helper
catches its own exceptions internally, which the outcome constructors
(`exn ...`) make explicit. -/

namespace EnhancedGen

/-- The fields of the `mr_info` entry of the result that the pipeline reads.  Metadata
populated from the API response body carries no `source` key (`none`);
metadata reconstructed from the browser carries `source = "browser"`. -/
structure MrInfo where
  title : String
  web_url : String
  iid : String
  source : Option String
deriving DecidableEq, Repr

/-- Run-scoped capability flags of the generator object (`__init__`,
lines 122-124, plus the sticky `ssl_verify` flag). -/
structure RunState where
  api_access_working : Bool
  browser_session_available : Bool
  skip_browser : Bool
  ssl_verify : Bool
deriving DecidableEq, Repr

/-- Outcome of the HTTP GET inside `get_merge_request_info` for one merge
request: a status code, an SSL error (with the outcome of the unverified
retry), or any other exception raised in the `try` body. -/
inductive ApiOutcome where
  | ok (info : MrInfo)
  | unauthorized
  | forbidden
  | notFound
  | otherStatus (code : Nat)
  | sslErrorThenOk (info : MrInfo)
  | sslErrorThenFail
  | exn (msg : String)
deriving DecidableEq, Repr

/-- Embedding of `get_merge_request_info` (lines 636-669): 200 returns the metadata;
404, 403, 401 and every other status return `None`; an SSL error retries
without verification (making `ssl_verify` sticky-false on success); every
exception is caught and yields `None`.  The run-scoped
`api_access_working` flag is never touched here. -/
def get_merge_request_info_step (st : RunState) (o : ApiOutcome) :
    Option MrInfo × RunState :=
  match o with
  | .ok info => (some info, st)
  | .unauthorized => (none, st)
  | .forbidden => (none, st)
  | .notFound => (none, st)
  | .otherStatus _ => (none, st)
  | .sslErrorThenOk info => (some info, { st with ssl_verify := false })
  | .sslErrorThenFail => (none, st)
  | .exn _ => (none, st)

/-- Outcome of the one-time credential probe against `/api/v4/user` in
`verify_gitlab_authentication` (lines 136-184).  A connection error
re-raises and aborts the run, so it has no resulting flag value and is not
modelled here. -/
inductive ProbeOutcome where
  | ok
  | unauthorized
  | forbidden
  | otherStatus (code : Nat)
  | sslThenOk
  | sslThenFail
  | exn (msg : String)
deriving DecidableEq, Repr

/-- The `api_access_working` flag produced by the one-time probe:
200 sets it true; 401, 403, any other status and any exception call
`handle_api_failure`, which sets it false; an SSL error retries without
verification (`handle_ssl_error`, lines 205-233). -/
def verify_gitlab_authentication : ProbeOutcome → Bool
  | .ok => true
  | .unauthorized => false
  | .forbidden => false
  | .otherStatus _ => false
  | .sslThenOk => true
  | .sslThenFail => false
  | .exn _ => false

/-- The accessibility record built by `check_mr_accessibility`
(lines 462-468). -/
structure AccessResult where
  accessible : Bool
  api_accessible : Bool
  browser_accessible : Bool
  mr_info : Option MrInfo
  error : Option String
deriving DecidableEq, Repr

/-- The initial record of `check_mr_accessibility`. -/
def initResult : AccessResult :=
  { accessible := false, api_accessible := false, browser_accessible := false,
    mr_info := none, error := none }

/-- How the rendered merge-request page classifies in
`check_mr_browser_access` (lines 506-565): an error-indicator selector, an
error text without merge-request text, a merge-request content selector,
merge-request text, nothing identifiable, or an exception anywhere in the
`try` body. -/
inductive BrowserOutcome where
  | errorSelector (sel : String)
  | errorText (t : String)
  | mrIndicator
  | mrText
  | notIdentifiable
  | exn (msg : String)
deriving DecidableEq, Repr

/-- Embedding of `check_mr_browser_access` (lines 506-565): returns whether the page is
accessible and updates the result record (`browser_accessible` on success,
`error` on failure; its own exceptions are caught and recorded). -/
def check_mr_browser_access (o : BrowserOutcome) (r : AccessResult) :
    Bool × AccessResult :=
  match o with
  | .errorSelector sel =>
      let msg := "Access denied or MR not found via browser (selector: " ++ sel ++ ")"
      (false, { r with error := some msg })
  | .errorText t =>
      (false, { r with error := some ("Error page detected: " ++ t) })
  | .mrIndicator => (true, { r with browser_accessible := true })
  | .mrText => (true, { r with browser_accessible := true })
  | .notIdentifiable =>
      (false, { r with error := some "MR content not found in browser" })
  | .exn msg =>
      (false, { r with error := some ("Browser access check failed: " ++ msg) })

/-- The ordered title selectors of `extract_mr_info_from_browser`
(lines 573-576). -/
def title_selectors : List String :=
  [".issue-title", ".merge-request-title", "h1.title", ".title",
   ".issuable-header-text h1"]

/-- The title loop of `extract_mr_info_from_browser` (lines 578-583): the
first selector that resolves to any elements wins and contributes the
stripped text of its first element; if none match, the title stays
`"Unknown Title"`. -/
def title_from_selectors (lookup : String → List String) :
    List String → String
  | [] => "Unknown Title"
  | sel :: rest =>
      match lookup sel with
      | [] => title_from_selectors lookup rest
      | t :: _ => Pystr.strip t

/-- Embedding of `extract_mr_info_from_browser` (lines 567-595): on success stores
title, URL, iid and the provenance tag `source = "browser"`; its own
exceptions are caught, leaving the record unchanged. -/
def extract_mr_info_from_browser (lookup : String → List String)
    (extractExn : Bool) (gitlab_url project_id mr_iid : String)
    (r : AccessResult) : AccessResult :=
  if extractExn then r
  else
    let info : MrInfo :=
      { title := title_from_selectors lookup title_selectors
        web_url := gitlab_url ++ "/" ++ project_id ++ "/-/merge_requests/" ++ mr_iid
        iid := mr_iid
        source := some "browser" }
    { r with mr_info := some info }

/-- Everything one resolution of a merge request can observe: the run-scoped
flags and the outcomes of the API call, the browser check and the title
extraction. -/
structure ResolveEnv where
  st : RunState
  apiOutcome : ApiOutcome
  browserOutcome : BrowserOutcome
  extractExn : Bool
  titleLookup : String → List String
  gitlab_url : String
  project_id : String
  mr_iid : String

/-- Embedding of `check_mr_accessibility` (lines 458-504): API check when
`api_access_working`, browser check when a session is available and either
the API failed or cross-checking is on, browser metadata extraction when the
page was accessible but metadata is still null, and finally
`accessible := api_accessible or browser_accessible` (line 493).  Every
fallible step catches its own exceptions (modelled by the `exn` outcomes),
so the outer handler of lines 500-502 is unreachable. -/
def check_mr_accessibility (env : ResolveEnv) : AccessResult :=
  let r1 :=
    if env.st.api_access_working then
      match (get_merge_request_info_step env.st env.apiOutcome).1 with
      | some info => { initResult with api_accessible := true, mr_info := some info }
      | none => initResult
    else initResult
  let r2 :=
    if env.st.browser_session_available && (!r1.api_accessible || !env.st.skip_browser) then
      let step := check_mr_browser_access env.browserOutcome r1
      if step.1 && step.2.mr_info = none then
        extract_mr_info_from_browser env.titleLookup env.extractExn
          env.gitlab_url env.project_id env.mr_iid step.2
      else step.2
    else r1
  { r2 with accessible := r2.api_accessible || r2.browser_accessible }

end EnhancedGen

/-- C2. Every accessibility result — including the ones in which a browser
step, the API call or the title extraction raised an exception that the
resolver caught mid-check — satisfies
`accessible = api_accessible || browser_accessible`. -/
theorem C2_accessible_invariant (env : EnhancedGen.ResolveEnv) :
    (EnhancedGen.check_mr_accessibility env).accessible =
      ((EnhancedGen.check_mr_accessibility env).api_accessible ||
       (EnhancedGen.check_mr_accessibility env).browser_accessible) := by
  rfl

/-- A concrete browser page for the C7 scenario: the first title selector
resolves to one element with text "Fix login bug". -/
def c7_lookup : String → List String :=
  fun sel => if sel = ".issue-title" then ["Fix login bug"] else []

/-- A concrete resolution environment: the API capability is down, a browser
session is available, the page shows merge-request markers, and the title
extraction succeeds. -/
def c7_env : EnhancedGen.ResolveEnv :=
  { st := { api_access_working := false, browser_session_available := true,
            skip_browser := false, ssl_verify := true }
    apiOutcome := .notFound
    browserOutcome := .mrIndicator
    extractExn := false
    titleLookup := c7_lookup
    gitlab_url := "https://gitlab.example.com"
    project_id := "group%2Fproj"
    mr_iid := "42" }

/-- C7, counterexample. In the browser-only path the resolver does extract
the title of the first matching selector ("Fix login bug"), but the stored
provenance tag is `source = "browser"` (line 589), not the claimed
`"ui-fallback"`. -/
theorem C7_counterexample :
    (EnhancedGen.check_mr_accessibility c7_env).mr_info.map EnhancedGen.MrInfo.title =
      some "Fix login bug" ∧
    (EnhancedGen.check_mr_accessibility c7_env).mr_info.map EnhancedGen.MrInfo.source =
      some (some "browser") ∧
    some (some "browser") ≠ some (some ("ui-fallback" : String)) := by
  decide

/-- C7, amended. Whenever the API capability is down, a browser session is
available, the page classifies as merge-request content and the extraction
step does not raise, the resolver stores metadata whose title is produced by
trying the ordered selector list and taking the first selector that resolves
to any element (default "Unknown Title"), and whose provenance tag is
`"browser"` (the name `ui-fallback` used by the spec does not occur in the code). -/
theorem C7_browser_provenance (env : EnhancedGen.ResolveEnv)
    (hapi : env.st.api_access_working = false)
    (hbr : env.st.browser_session_available = true)
    (hok : env.browserOutcome = .mrIndicator ∨ env.browserOutcome = .mrText)
    (hexn : env.extractExn = false) :
    ((EnhancedGen.check_mr_accessibility env).mr_info.map EnhancedGen.MrInfo.source =
      some (some "browser")) ∧
    ((EnhancedGen.check_mr_accessibility env).mr_info.map EnhancedGen.MrInfo.title =
      some (EnhancedGen.title_from_selectors env.titleLookup EnhancedGen.title_selectors)) ∧
    (∀ (lookup : String → List String) sel rest, lookup sel = [] →
      EnhancedGen.title_from_selectors lookup (sel :: rest) =
        EnhancedGen.title_from_selectors lookup rest) ∧
    (∀ (lookup : String → List String) sel rest t ts, lookup sel = t :: ts →
      EnhancedGen.title_from_selectors lookup (sel :: rest) = Pystr.strip t) := by
  refine ⟨?_, ?_, ?_, ?_⟩
  · rcases hok with h | h <;>
      simp [EnhancedGen.check_mr_accessibility, EnhancedGen.check_mr_browser_access,
        EnhancedGen.extract_mr_info_from_browser, EnhancedGen.initResult, hapi, hbr, hexn, h]
  · rcases hok with h | h <;>
      simp [EnhancedGen.check_mr_accessibility, EnhancedGen.check_mr_browser_access,
        EnhancedGen.extract_mr_info_from_browser, EnhancedGen.initResult, hapi, hbr, hexn, h]
  · intro lookup sel rest h
    simp [EnhancedGen.title_from_selectors, h]
  · intro lookup sel rest t ts h
    simp [EnhancedGen.title_from_selectors, h]

/-- C7, witness: the amended theorem applied to the concrete environment. -/
theorem C7_browser_provenance_witness :
    (EnhancedGen.check_mr_accessibility c7_env).mr_info.map EnhancedGen.MrInfo.source =
      some (some "browser") :=
  (C7_browser_provenance c7_env rfl rfl (Or.inl rfl) rfl).1

namespace EnhancedGen

/-- The structured-API activity of one merge request inside the batch loop
(`check_mr_accessibility` lines 472-481): `get_merge_request_info` is
invoked exactly when the run-scoped `api_access_working` flag is true; the
Bool component records whether the API was probed for this request. -/
def mr_api_step (st : RunState) (o : ApiOutcome) :
    (Bool × Option MrInfo) × RunState :=
  if st.api_access_working then
    ((true, (get_merge_request_info_step st o).1), (get_merge_request_info_step st o).2)
  else ((false, none), st)

/-- The structured-API activity across a batch of merge requests
(`process_merge_requests` iterating the configured list), threading the
run-scoped state with one API outcome per request. -/
def run_batch (st : RunState) : List ApiOutcome → List (Bool × Option MrInfo) × RunState
  | [] => ([], st)
  | o :: os =>
      let step := mr_api_step st o
      let rest := run_batch step.2 os
      (step.1 :: rest.1, rest.2)

end EnhancedGen

/-- A per-request API step never changes the `api_access_working` flag
(`get_merge_request_info` only ever touches `ssl_verify`). -/
lemma mr_api_step_preserves_flag (st : EnhancedGen.RunState) (o : EnhancedGen.ApiOutcome) :
    ((EnhancedGen.mr_api_step st o).2).api_access_working = st.api_access_working := by
  unfold EnhancedGen.mr_api_step
  cases hb : st.api_access_working
  · simp [hb]
  · cases o <;> simp [hb, EnhancedGen.get_merge_request_info_step]

/-- No batch of per-request API outcomes changes `api_access_working`. -/
lemma run_batch_preserves_flag (os : List EnhancedGen.ApiOutcome) :
    ∀ st, ((EnhancedGen.run_batch st os).2).api_access_working = st.api_access_working := by
  induction os with
  | nil => intro st; rfl
  | cons o os ih =>
      intro st
      simp only [EnhancedGen.run_batch]
      rw [ih]
      exact mr_api_step_preserves_flag st o

/-- C8, counterexample. After a successful one-time probe, a per-request 403
from `get_merge_request_info` does NOT flip the run-scoped
`api_access_working` flag: in a batch of two merge requests whose first API
call returns 403, the flag is still true afterwards and the second merge
request probes the structured API again. -/
theorem C8_sticky_counterexample :
    EnhancedGen.verify_gitlab_authentication .ok = true ∧
    (let st0 : EnhancedGen.RunState :=
      ⟨EnhancedGen.verify_gitlab_authentication .ok, true, false, true⟩
     let out := EnhancedGen.run_batch st0 [.forbidden, .ok ⟨"T", "https://g/mr/2", "2", none⟩]
     out.2.api_access_working = true ∧
       out.1 = [(true, none), (true, some ⟨"T", "https://g/mr/2", "2", none⟩)]) := by
  decide

/-- C8, amended. Sticky capability degradation happens only in the one-time
authentication probe: 401/403 there set `api_access_working` false for the
run.  A per-request 401/403 from `get_merge_request_info` merely yields no
metadata for that merge request and leaves the flag unchanged, so while the
flag is true every subsequent merge request probes the structured API again,
and no batch of per-request outcomes ever changes the flag. -/
theorem C8_amended_per_request (st : EnhancedGen.RunState) (o : EnhancedGen.ApiOutcome)
    (os : List EnhancedGen.ApiOutcome) :
    ((EnhancedGen.mr_api_step st o).2).api_access_working = st.api_access_working ∧
    (st.api_access_working = true → ((EnhancedGen.mr_api_step st o).1).1 = true) ∧
    ((EnhancedGen.run_batch st os).2).api_access_working = st.api_access_working ∧
    EnhancedGen.verify_gitlab_authentication .unauthorized = false ∧
    EnhancedGen.verify_gitlab_authentication .forbidden = false ∧
    EnhancedGen.get_merge_request_info_step st .forbidden = (none, st) ∧
    EnhancedGen.get_merge_request_info_step st .unauthorized = (none, st) := by
  refine ⟨mr_api_step_preserves_flag st o, ?_, run_batch_preserves_flag os st, rfl, rfl, rfl, rfl⟩
  intro h
  simp [EnhancedGen.mr_api_step, h]

/-- C8, witness: with the flag true, a request whose API call returns 403
still probes the API. -/
theorem C8_amended_per_request_witness :
    ((EnhancedGen.mr_api_step ⟨true, true, false, true⟩ .forbidden).1).1 = true :=
  (C8_amended_per_request ⟨true, true, false, true⟩ .forbidden []).2.1 rfl

/-! ## Analysis orchestration and fallback synthesis
(`gitlab_mr_missing_code.py`, `gitlab_mr_complete.py`) -/

namespace MissingCode

/-- The merge-request metadata read by `generate_fallback_analysis` and
`send_to_gemini_analysis`: the only key the fallback reads is `title`
(defaulting to "Merge Request" when absent). -/
structure MrData where
  title : Option String
deriving DecidableEq, Repr

/-- Per-process interpreter state: `setOrder` is the iteration order CPython
gives a `set` of strings (determined by the process-wide string-hash seed).
It maps the insertion-ordered, deduplicated elements to the order the
process iterates them in; it is one fixed function for the whole run, so
any two calls inside a run share it. -/
structure PyEnv where
  setOrder : List String → List String

/-- The categories in first-appearance order — the iteration order of the
`categories` dict built by `summarize_changes` (lines 266-272). -/
def categoriesOf (changes : List ProcessedChange) : List String :=
  Pystr.firstSeen (changes.map (fun c => c.file_category))

/-- The changes grouped under one category (lines 269-272). -/
def changesIn (changes : List ProcessedChange) (cat : String) : List ProcessedChange :=
  changes.filter (fun c => c.file_category == cat)

/-- The `change_types` dict of `summarize_changes` (lines 276-281): keys in
first-appearance order, each with its occurrence count. -/
def change_type_counts (cs : List ProcessedChange) : List (String × Nat) :=
  (Pystr.firstSeen (cs.map (fun c => c.change_type))).map
    (fun t => (t, (cs.filter (fun c => c.change_type == t)).length))

/-- The `frameworks` set of one category (line 282), as its
insertion-ordered deduplicated elements. -/
def frameworks_set (cs : List ProcessedChange) : List String :=
  Pystr.firstSeen ((cs.map (fun c => c.frameworks)).flatten)

/-- Embedding of `summarize_changes` of `gitlab_mr_missing_code.py` (lines 262-289). -/
def summarize_changes (env : PyEnv) (changes : List ProcessedChange) : String :=
  let parts := (categoriesOf changes).map (fun cat =>
    let ccs := changesIn changes cat
    let fws := frameworks_set ccs
    let framework_info :=
      if fws ≠ [] then " (Frameworks: " ++ Pystr.joinWith ", " (env.setOrder fws) ++ ")"
      else ""
    let details := Pystr.joinWith ", "
      ((change_type_counts ccs).map (fun p => toString p.2 ++ " " ++ p.1))
    "- **" ++ Pystr.title cat ++ "**: " ++ details ++ framework_info)
  if parts ≠ [] then Pystr.joinWith "\n" parts else "No categorized changes found"

/-- Embedding of `generate_fallback_analysis` of `gitlab_mr_missing_code.py`
(lines 341-405): the deterministic template document, transcribed verbatim
from the f-strings of the source. -/
def generate_fallback_analysis (env : PyEnv) (mr : MrData) (changes : List ProcessedChange) :
    String :=
  let change_summary := summarize_changes env changes
  let total_files := changes.length
  let added_files := (changes.filter (fun c => c.change_type == "added")).length
  let modified_files := (changes.filter (fun c => c.change_type == "modified")).length
  let deleted_files := (changes.filter (fun c => c.change_type == "deleted")).length
  let all_frameworks := Pystr.firstSeen ((changes.map (fun c => c.frameworks)).flatten)
  let fw_text :=
    if all_frameworks ≠ [] then Pystr.joinWith ", " (env.setOrder all_frameworks)
    else "Standard technologies"
  let cats := changes.map (fun c => c.file_category)
  let header :=
    "\n# Technical Analysis: " ++ mr.title.getD "Merge Request" ++
    "\n\n## Executive Summary\nThis merge request contains " ++ toString total_files ++
    " file changes affecting multiple components of the application." ++
    "\n\n## Change Overview\n- **Files Added**: " ++ toString added_files ++
    "\n- **Files Modified**: " ++ toString modified_files ++
    "\n- **Files Deleted**: " ++ toString deleted_files ++
    "\n- **Frameworks/Technologies**: " ++ fw_text ++
    "\n\n## File Changes by Category\n" ++ change_summary ++
    "\n\n## Technical Impact\nBased on the file changes, this merge request appears to involve:\n"
  let insights :=
    (if cats.contains "backend" then
      "\n- **Backend Changes**: Server-side logic modifications" else "") ++
    (if cats.contains "frontend" then
      "\n- **Frontend Changes**: User interface and client-side updates" else "") ++
    (if cats.contains "configuration" then
      "\n- **Configuration Changes**: System configuration updates" else "") ++
    (if cats.contains "test" then
      "\n- **Test Changes**: Test suite modifications" else "")
  let closing :=
    "\n\n## Deployment Considerations" ++
    "\n- Review all configuration changes before deployment" ++
    "\n- Ensure proper testing of modified components" ++
    "\n- Consider database migration requirements if applicable" ++
    "\n\n## Recommended Testing" ++
    "\n- Unit tests for modified business logic" ++
    "\n- Integration tests for API changes" ++
    "\n- UI testing for frontend modifications" ++
    "\n- End-to-end testing for critical user workflows" ++
    "\n\n---" ++
    "\n*Analysis generated automatically. Please review code changes for complete understanding.*\n"
  Pystr.strip (header ++ insights ++ closing)

/-- The observable machine state surrounding a call (clock ticks, emitted
log lines).  Effectful steps of the embedding thread a `World`;
`generate_fallback_analysis` contains no effectful operation, so its
world-passing form leaves the world untouched. -/
structure World where
  clock : Nat
  log : List String
deriving DecidableEq, Repr

/-- The world-passing form of `generate_fallback_analysis`: the body
(lines 341-405) is pure string formatting — it calls no network, browser,
file, clock or randomness primitive — so the translation returns the
unchanged world alongside the result. -/
def generate_fallback_analysis_run (env : PyEnv) (mr : MrData)
    (changes : List ProcessedChange) (w : World) : String × World :=
  (generate_fallback_analysis env mr changes, w)

/-- The analysis value handed back by `send_to_gemini_analysis`, tagged by
which return statement produced it: `external` is the extracted Gemini
response (line 219), `fallback` is a `generate_fallback_analysis` result. -/
inductive Analysis where
  | external (s : String)
  | fallback (s : String)
deriving DecidableEq, Repr

/-- The plain string the Python caller sees. -/
def Analysis.text : Analysis → String
  | .external s => s
  | .fallback s => s

/-- What one `send_to_gemini_analysis` invocation can observe: the
`gemini_ready` flag, an exception raised at any step of the `try` body
(tab switch, element lookup, click, script, keys — all inside one handler),
whether any input selector resolved, and the string returned by
`extract_gemini_response` (that helper catches its own exceptions and
returns `""`). -/
structure GeminiEnv where
  gemini_ready : Bool
  step_exn : Option String
  input_found : Bool
  extracted : String
deriving DecidableEq, Repr

/-- Embedding of `send_to_gemini_analysis` of `gitlab_mr_missing_code.py`
(lines 167-226): not ready → fallback; input not found → fallback;
extracted response kept only when non-empty and its stripped length
exceeds 100; every exception is caught and yields the fallback. -/
def send_to_gemini_analysis (penv : PyEnv) (genv : GeminiEnv) (mr : MrData)
    (changes : List ProcessedChange) : Analysis :=
  match genv.step_exn with
  | some _ => .fallback (generate_fallback_analysis penv mr changes)
  | none =>
      if !genv.gemini_ready then .fallback (generate_fallback_analysis penv mr changes)
      else if !genv.input_found then .fallback (generate_fallback_analysis penv mr changes)
      else if genv.extracted ≠ "" ∧ 100 < Pystr.strLen (Pystr.strip genv.extracted) then
        .external genv.extracted
      else .fallback (generate_fallback_analysis penv mr changes)

end MissingCode

namespace CompleteGen

/-- The primary response-extraction loop of `gitlab_mr_complete.py`
(`extract_gemini_response`, lines 1155-1182): one entry per response XPath
holding the texts of the elements it matched (an empty list when the XPath
matched nothing or its own attempt raised).  The stripped text of the last
matched element is returned when non-empty and longer than 50 characters,
else the next XPath is tried; with nothing left the result is `""`. -/
def extract_gemini_response (found : List (List String)) : String :=
  match found with
  | [] => ""
  | texts :: rest =>
      match texts.getLast? with
      | none => extract_gemini_response rest
      | some t =>
          let rt := Pystr.strip t
          if rt ≠ "" ∧ 50 < Pystr.strLen rt then rt else extract_gemini_response rest

/-- The body-scan loop of `extract_gemini_response_alternative`
(lines 1192-1197): once any line contains one of the section keywords
(case-insensitively), that line and every following line are collected. -/
def altScan (keywords : List String) : List String → Bool → List String
  | [], _ => []
  | line :: rest, found =>
      let found2 := found || keywords.any (fun k => Pystr.contains (Pystr.lower line) k)
      if found2 then line :: altScan keywords rest found2
      else altScan keywords rest found2

/-- Embedding of `extract_gemini_response_alternative` of `gitlab_mr_complete.py`
(lines 1184-1203): scans the page body for section keywords and returns the
collected tail, or the last 2000 characters of the body when no keyword
line exists; its own exceptions produce a fixed error string.  No length
threshold is applied to the result. -/
def extract_gemini_response_alternative (body_exn : Bool) (page_text : String) : String :=
  if body_exn then "Could not extract response from Gemini"
  else
    let lines := Pystr.split page_text '\n'
    let response_lines := altScan ["summary", "technical changes", "impact analysis"] lines false
    if response_lines ≠ [] then Pystr.joinWith "\n" response_lines
    else Pystr.takeRight page_text 2000

/-- What one `send_prompt_to_gemini_web` invocation can observe: the
authentication flag, an exception raised at any step of the `try` body
(navigation, input location — which raises when nothing matches —,
clearing, chunked typing, submission, polling), the element texts matched
by each response XPath, and the page body for the alternative scan. -/
structure WebEnv where
  authenticated_gemini : Bool
  step_exn : Option String
  found : List (List String)
  body_exn : Bool
  page_text : String
deriving DecidableEq, Repr

/-- Embedding of `send_prompt_to_gemini_web` of `gitlab_mr_complete.py`
(lines 1006-1153): unauthenticated → a fixed error string; any exception in
the `try` body → the string `"Error getting response from Gemini: "`
followed by the raw fault text (line 1153); otherwise the primary
extraction, falling back to the alternative extraction when it was empty —
returned without any length check. -/
def send_prompt_to_gemini_web (env : WebEnv) (prompt : String) : String :=
  if !env.authenticated_gemini then "Error: Gemini not authenticated"
  else
    match env.step_exn with
    | some msg => "Error getting response from Gemini: " ++ msg
    | none =>
        let r := extract_gemini_response env.found
        if r = "" then extract_gemini_response_alternative env.body_exn env.page_text
        else r

/-- One Java file change as extracted by `extract_java_changes`
(lines 980-1004). -/
structure JavaChange where
  file_path : String
  old_path : String
  diff : String
  new_file : Bool
  deleted_file : Bool
  renamed_file : Bool
deriving DecidableEq, Repr

/-- The status phrase of a file section (line 1237). -/
def status_text (c : JavaChange) : String :=
  if c.new_file then "New file"
  else if c.deleted_file then "Deleted file"
  else if c.renamed_file then "Renamed file"
  else "Modified file"

/-- The diff text placed in a file section (line 1242):
`change["diff"][:2000]` plus a `"..."` marker exactly when the diff is
longer than 2000 characters. -/
def included_diff (c : JavaChange) : String :=
  Pystr.take c.diff 2000 ++ (if 2000 < Pystr.strLen c.diff then "..." else "")

/-- One file section of the prompt (lines 1234-1243). -/
def file_section (i : Nat) (c : JavaChange) : String :=
  "\n\n**File " ++ toString i ++ ": " ++ c.file_path ++ "**" ++
  "\n- Status: " ++ status_text c ++
  "\n- Old path: " ++ c.old_path ++
  "\n\n**Changes:**\n```diff\n" ++ included_diff c ++ "\n```"

/-- The changes that make it into the prompt (line 1233):
`java_changes[:5]`, i.e. the first five in input order. -/
def selected_changes (java_changes : List JavaChange) : List JavaChange :=
  java_changes.take 5

/-- The file sections numbered from `i` (the `enumerate(..., 1)` loop). -/
def sectionsFrom (i : Nat) : List JavaChange → String
  | [] => ""
  | c :: cs => file_section i c ++ sectionsFrom (i + 1) cs

/-- The merge-request fields read by the prompt header (lines 1223-1228),
each defaulting to "N/A" when absent. -/
structure MrInfoData where
  title : Option String
  description : Option String
  author_name : Option String
  source_branch : Option String
  target_branch : Option String
  created_at : Option String
deriving DecidableEq, Repr

/-- The prompt header of `analyze_code_changes_with_gemini`
(lines 1220-1230). -/
def prompt_header (mr : MrInfoData) : String :=
  "Please analyze the following GitLab merge request and generate comprehensive documentation." ++
  "\n\n**Merge Request Information:**" ++
  "\n- Title: " ++ mr.title.getD "N/A" ++
  "\n- Description: " ++ mr.description.getD "N/A" ++
  "\n- Author: " ++ mr.author_name.getD "N/A" ++
  "\n- Source Branch: " ++ mr.source_branch.getD "N/A" ++
  "\n- Target Branch: " ++ mr.target_branch.getD "N/A" ++
  "\n- Created: " ++ mr.created_at.getD "N/A" ++
  "\n\n**Java Code Changes:**"

/-- The fixed prompt tail (lines 1245-1256). -/
def prompt_footer : String :=
  "\n\n**Please provide a comprehensive analysis including:**" ++
  "\n\n1. **Summary**: Brief overview of what this merge request accomplishes" ++
  "\n2. **Technical Changes**: Detailed breakdown of changes made to each Java file" ++
  "\n3. **Impact Analysis**: Potential impact on the system, performance, or other components" ++
  "\n4. **Risk Assessment**: Any potential risks or concerns with these changes" ++
  "\n5. **Testing Recommendations**: Suggestions for testing these changes" ++
  "\n6. **Documentation Updates**: Any documentation that might need to be updated" ++
  "\n\nPlease format your response in clear sections with markdown formatting."

/-- The full prompt built by `analyze_code_changes_with_gemini`
(lines 1220-1256). -/
def build_gemini_prompt (mr : MrInfoData) (java_changes : List JavaChange) : String :=
  prompt_header mr ++ sectionsFrom 1 (selected_changes java_changes) ++ prompt_footer

/-- Embedding of `analyze_code_changes_with_gemini` (lines 1205-1259): requires the
authentication flag and hands the built prompt to
`send_prompt_to_gemini_web`, returning its string verbatim. -/
def analyze_code_changes_with_gemini (env : WebEnv) (java_changes : List JavaChange)
    (mr : MrInfoData) : String :=
  if !env.authenticated_gemini then "Error: Gemini authentication required"
  else send_prompt_to_gemini_web env (build_gemini_prompt mr java_changes)

end CompleteGen

/-- Round-trip of `String.toList` and `List.asString`. -/
lemma asString_toList (s : String) : s.toList.asString = s := rfl

/-- C6. The fallback synthesizer is pure and deterministic: its
world-passing form leaves the world untouched (no I/O), its result does not
depend on the world (no clock or randomness), and two calls with equal
metadata and equal change lists in the same run produce byte-identical
documents. -/
theorem C6_fallback_deterministic (env : MissingCode.PyEnv)
    (mr mr2 : MissingCode.MrData) (cs cs2 : List MissingCode.ProcessedChange)
    (w w2 : MissingCode.World) :
    (mr = mr2 → cs = cs2 →
      (MissingCode.generate_fallback_analysis_run env mr cs w).1 =
        (MissingCode.generate_fallback_analysis_run env mr2 cs2 w2).1) ∧
    (MissingCode.generate_fallback_analysis_run env mr cs w).2 = w := by
  exact ⟨fun h1 h2 => by rw [h1, h2]; rfl, rfl⟩

/-- C6, witness: two calls with the same inputs in different worlds give the
same bytes. -/
theorem C6_fallback_deterministic_witness :
    (MissingCode.generate_fallback_analysis_run ⟨id⟩ ⟨some "T"⟩ [] ⟨0, []⟩).1 =
      (MissingCode.generate_fallback_analysis_run ⟨id⟩ ⟨some "T"⟩ [] ⟨7, ["navigated"]⟩).1 :=
  (C6_fallback_deterministic ⟨id⟩ ⟨some "T"⟩ ⟨some "T"⟩ [] [] ⟨0, []⟩ ⟨7, ["navigated"]⟩).1 rfl rfl

/-- A concrete `send_prompt_to_gemini_web` environment for the C3
counterexample: authenticated, no exception, no XPath match for the primary
extraction, and a short page body whose first line carries a section
keyword. -/
def c3_env : CompleteGen.WebEnv :=
  { authenticated_gemini := true
    step_exn := none
    found := [[], [], [], [], [], []]
    body_exn := false
    page_text := "Summary: ok" }

/-- C3, counterexample. The claim extends the substantiveness threshold to
"every possible extraction outcome including the alternative body-scan
extraction path", citing `extract_gemini_response_alternative` of
`gitlab_mr_complete.py`.  That path applies no length check: with the
primary extraction empty, an 11-character page body is returned to the
caller as the (non-fallback) analysis, far below the claimed 50-100
character threshold. -/
theorem C3_counterexample :
    CompleteGen.send_prompt_to_gemini_web c3_env "p" = "Summary: ok" ∧
    Pystr.strLen "Summary: ok" = 11 ∧ 11 < 50 := by
  decide

/-- C3, amended. In `gitlab_mr_missing_code.send_to_gemini_analysis` the
invariant holds: every result returned as external enrichment has stripped
length above 100, anything shorter is discarded for the fallback; and the
primary extractor of `gitlab_mr_complete.py` likewise only accepts
candidates longer than 50 characters.  The alternative body-scan path of
`gitlab_mr_complete.send_prompt_to_gemini_web`, however, is returned to the
caller without any length check, so the threshold does not cover that
path. -/
theorem C3_amended_threshold (penv : MissingCode.PyEnv) (genv : MissingCode.GeminiEnv)
    (mr : MissingCode.MrData) (cs : List MissingCode.ProcessedChange) (s : String)
    (found : List (List String)) :
    (MissingCode.send_to_gemini_analysis penv genv mr cs = .external s →
      100 < Pystr.strLen (Pystr.strip s)) ∧
    (CompleteGen.extract_gemini_response found = "" ∨
      50 < Pystr.strLen (CompleteGen.extract_gemini_response found)) := by
  constructor
  · intro h
    unfold MissingCode.send_to_gemini_analysis at h
    cases he : genv.step_exn with
    | some m => rw [he] at h; simp at h
    | none =>
        rw [he] at h
        by_cases hg : genv.gemini_ready
        · by_cases hi : genv.input_found
          · simp [hg, hi] at h
            by_cases hc : genv.extracted ≠ "" ∧ 100 < Pystr.strLen (Pystr.strip genv.extracted)
            · rw [if_pos hc] at h
              cases h
              exact hc.2
            · rw [if_neg hc] at h
              simp at h
          · simp [hg, hi] at h
        · simp [hg] at h
  · induction found with
    | nil => left; rfl
    | cons texts rest ih =>
        unfold CompleteGen.extract_gemini_response
        cases hl : texts.getLast? with
        | none => exact ih
        | some t =>
            by_cases hc : Pystr.strip t ≠ "" ∧ 50 < Pystr.strLen (Pystr.strip t)
            · simp only [if_pos hc]
              right
              exact hc.2
            · simp only [if_neg hc]
              exact ih

set_option maxRecDepth 4000 in
/-- C3, witness: a 150-character extracted response is accepted as external
and indeed exceeds the threshold. -/
theorem C3_amended_threshold_witness :
    100 < Pystr.strLen (Pystr.strip (List.replicate 150 'x').asString) :=
  (C3_amended_threshold ⟨id⟩ ⟨true, none, true, (List.replicate 150 'x').asString⟩
    ⟨none⟩ [] (List.replicate 150 'x').asString []).1 (by decide)

/-- A concrete `send_prompt_to_gemini_web` environment for the C9
counterexample: authenticated, and some step of the interaction raised an
exception with message "boom". -/
def c9_env : CompleteGen.WebEnv :=
  { authenticated_gemini := true
    step_exn := some "boom"
    found := []
    body_exn := false
    page_text := "" }

/-- C9, counterexample. The claim says the caller always receives the
degraded fallback analysis and never raw fault text.  In
`gitlab_mr_complete.send_prompt_to_gemini_web` (line 1153), a caught
exception is converted into the string
`"Error getting response from Gemini: <fault>"` and returned to the caller
as the analysis result — the raw fault text is embedded in the returned
analysis and no fallback analysis is produced on that path. -/
theorem C9_counterexample :
    CompleteGen.send_prompt_to_gemini_web c9_env "p" =
      "Error getting response from Gemini: boom" ∧
    Pystr.contains (CompleteGen.send_prompt_to_gemini_web c9_env "p") "boom" = true := by
  decide

/-- C9, amended. No exception ever propagates out of either orchestrator.
In `gitlab_mr_missing_code.send_to_gemini_analysis` every caught exception
yields exactly the fallback analysis, as the claim says.  In
`gitlab_mr_complete.send_prompt_to_gemini_web`, however, a caught exception
yields the error string embedding the raw fault text, which is returned to
the caller as the analysis result instead of a fallback. -/
theorem C9_amended_exception_handling (penv : MissingCode.PyEnv)
    (genv : MissingCode.GeminiEnv) (mr : MissingCode.MrData)
    (cs : List MissingCode.ProcessedChange) (msg : String)
    (env : CompleteGen.WebEnv) (p : String) :
    (genv.step_exn = some msg →
      MissingCode.send_to_gemini_analysis penv genv mr cs =
        .fallback (MissingCode.generate_fallback_analysis penv mr cs)) ∧
    (env.authenticated_gemini = true → env.step_exn = some msg →
      CompleteGen.send_prompt_to_gemini_web env p =
        "Error getting response from Gemini: " ++ msg) := by
  constructor
  · intro h
    unfold MissingCode.send_to_gemini_analysis
    rw [h]
  · intro ha h
    unfold CompleteGen.send_prompt_to_gemini_web
    rw [ha, h]
    rfl

/-- C9, witness: the amended theorem at concrete environments — an
exception in the missing-code orchestrator yields the fallback document,
and one in the complete-variant orchestrator yields the error string. -/
theorem C9_amended_exception_handling_witness :
    MissingCode.send_to_gemini_analysis ⟨id⟩ ⟨true, some "boom2", true, ""⟩ ⟨none⟩ [] =
      .fallback (MissingCode.generate_fallback_analysis ⟨id⟩ ⟨none⟩ []) ∧
    CompleteGen.send_prompt_to_gemini_web ⟨true, some "boom2", [], false, ""⟩ "p" =
      "Error getting response from Gemini: boom2" :=
  ⟨(C9_amended_exception_handling ⟨id⟩ ⟨true, some "boom2", true, ""⟩ ⟨none⟩ [] "boom2"
      ⟨true, some "boom2", [], false, ""⟩ "p").1 rfl,
   (C9_amended_exception_handling ⟨id⟩ ⟨true, some "boom2", true, ""⟩ ⟨none⟩ [] "boom2"
      ⟨true, some "boom2", [], false, ""⟩ "p").2 rfl rfl⟩

/-- The five small changes of the C5 scenario. -/
def c5_small (name : String) : CompleteGen.JavaChange :=
  { file_path := name, old_path := name, diff := "+x",
    new_file := false, deleted_file := false, renamed_file := false }

/-- The sixth change of the C5 scenario, by far the largest by volume. -/
def c5_big : CompleteGen.JavaChange :=
  { file_path := "Big.java", old_path := "Big.java",
    diff := "+aaaaaaaaaaaaaaaaaaaaaaaaaaaaaaaaaaaaaaaa",
    new_file := false, deleted_file := false, renamed_file := false }

/-- A six-change input whose largest-by-volume member comes last. -/
def c5_list : List CompleteGen.JavaChange :=
  [c5_small "A.java", c5_small "B.java", c5_small "C.java",
   c5_small "D.java", c5_small "E.java", c5_big]

/-- C5, counterexample. The claim says the prompt includes the five diffs
largest by volume.  `analyze_code_changes_with_gemini` takes
`java_changes[:5]` — the first five in input order: with the largest change
sixth, every selected diff is strictly smaller than the excluded one. -/
theorem C5_counterexample :
    (CompleteGen.selected_changes c5_list).map CompleteGen.JavaChange.file_path =
      ["A.java", "B.java", "C.java", "D.java", "E.java"] ∧
    ((CompleteGen.selected_changes c5_list).all
      (fun c => Pystr.strLen c.diff < Pystr.strLen c5_big.diff)) = true ∧
    c5_big ∈ c5_list ∧
    c5_big ∉ CompleteGen.selected_changes c5_list := by
  decide

/-- C5, amended. The prompt includes at most 5 file diffs — the FIRST five
of the input order, not the largest by volume (the prompt depends on the
change list only through its first five entries) — and every included diff
is cut at the 2000-character cap, with the `...` truncation marker appended
exactly when the original diff exceeds the cap; a diff within the cap is
included whole. -/
theorem C5_amended_prompt (mr : CompleteGen.MrInfoData)
    (jcs : List CompleteGen.JavaChange) (c : CompleteGen.JavaChange) :
    (CompleteGen.selected_changes jcs).length ≤ 5 ∧
    (c ∈ CompleteGen.selected_changes jcs → c ∈ jcs) ∧
    CompleteGen.build_gemini_prompt mr jcs =
      CompleteGen.build_gemini_prompt mr (jcs.take 5) ∧
    Pystr.strLen (Pystr.take c.diff 2000) ≤ 2000 ∧
    (2000 < Pystr.strLen c.diff →
      CompleteGen.included_diff c = Pystr.take c.diff 2000 ++ "...") ∧
    (Pystr.strLen c.diff ≤ 2000 → CompleteGen.included_diff c = c.diff) := by
  refine ⟨?_, ?_, ?_, ?_, ?_, ?_⟩
  · simpa [CompleteGen.selected_changes] using List.length_take_le 5 jcs
  · intro h
    exact List.mem_of_mem_take h
  · simp [CompleteGen.build_gemini_prompt, CompleteGen.selected_changes, List.take_take]
  · simp only [Pystr.strLen, Pystr.take]
    calc ((c.diff.toList.take 2000).asString).toList.length
        = (c.diff.toList.take 2000).length := by rw [List.toList_asString]
      _ ≤ 2000 := List.length_take_le 2000 c.diff.toList
  · intro h
    simp [CompleteGen.included_diff, h]
  · intro h
    have hle : Pystr.strLen c.diff ≤ 2000 := h
    unfold CompleteGen.included_diff
    rw [if_neg (by omega)]
    unfold Pystr.take
    rw [List.take_of_length_le (by simpa [Pystr.strLen] using hle)]
    rw [String.append_empty]
    exact asString_toList c.diff

/-- C5, witness: a diff within the cap is included whole, and a
2600-character diff is cut at 2000 characters with the visible `...`
marker. -/
theorem C5_amended_prompt_witness :
    CompleteGen.included_diff ⟨"f", "f", "ab", false, false, false⟩ = "ab" ∧
    CompleteGen.included_diff
        ⟨"g", "g", (List.replicate 2600 'a').asString, false, false, false⟩ =
      Pystr.take (List.replicate 2600 'a').asString 2000 ++ "..." :=
  ⟨(C5_amended_prompt ⟨none, none, none, none, none, none⟩ []
      ⟨"f", "f", "ab", false, false, false⟩).2.2.2.2.2 (by decide),
   (C5_amended_prompt ⟨none, none, none, none, none, none⟩ []
      ⟨"g", "g", (List.replicate 2600 'a').asString, false, false, false⟩).2.2.2.2.1
      (by unfold Pystr.strLen; rw [List.toList_asString, List.length_replicate]; norm_num)⟩
